import Mathlib

/-!
Verification of the AI_Summariser folder-summarization pipeline.

The development shallowly embeds the three core modules of the repository:

* `models/schemas.py` — the pydantic record types (`Post`, `Channel`, `Folder`,
  `PostSummary`, `Summary`, `AIResponse`);
* `core/database.py` — the read-only SQLite queries, modelled as pure
  functions over an in-memory `Database` of rows;
* `core/ai_client.py` — the FreeGPT HTTP client, modelled over per-attempt
  transport oracles (the network is external input);
* `core/summariser.py` — the orchestration pipeline `summarise_folder`,
  `ask_about_posts`, `search_and_summarise` and its two local heuristics.

External effects are modelled as explicit inputs: the wall clock enters as a
pre-computed `cutoff` (Python computes `datetime.now() - timedelta(days_back)`
before querying; `cutoff = none` models `days_back` being `None` or `0`, the
falsy cases of `if days_back:`), and each HTTP call site draws from its own
attempt-indexed outcome oracle.  Machine floats appear only as the stored
constant `confidence`; it is modelled as a rational since no float arithmetic
is ever performed on it.
-/

namespace AISummariser

/-- Timestamp record standing for Python `datetime`: calendar fields plus
time of day.  Comparison, where the code compares datetimes, is by the
lexicographic key below. -/
structure DateTime where
  year : Nat
  month : Nat
  day : Nat
  hour : Nat
  minute : Nat
  second : Nat
deriving DecidableEq, Repr

/-- Lexicographic comparison key for `DateTime` (year, month, day, hour,
minute, second), matching `datetime` ordering on calendar-valid values. -/
def DateTime.key (d : DateTime) : Nat :=
  ((((d.year * 13 + d.month) * 32 + d.day) * 24 + d.hour) * 60 + d.minute) * 60 + d.second

/-- `a < b` on datetimes, as a boolean (Python `<`). -/
def DateTime.ltb (a b : DateTime) : Bool := a.key < b.key

/-- Python `min(iterable)` over a non-empty list of datetimes: fold keeping
the first smallest element. -/
def pyMinDate (d : DateTime) (ds : List DateTime) : DateTime :=
  ds.foldl (fun a b => if DateTime.ltb b a then b else a) d

/-- Python `max(iterable)` over a non-empty list of datetimes: fold keeping
the first largest element. -/
def pyMaxDate (d : DateTime) (ds : List DateTime) : DateTime :=
  ds.foldl (fun a b => if DateTime.ltb a b then b else a) d

/-- Zero-pad to two digits, as `strftime` `%d` / `%m` do. -/
def pad2 (n : Nat) : String := if n < 10 then "0" ++ toString n else toString n

/-- Zero-pad to four digits, as `strftime` `%Y` does. -/
def pad4 (n : Nat) : String :=
  if n < 10 then "000" ++ toString n
  else if n < 100 then "00" ++ toString n
  else if n < 1000 then "0" ++ toString n
  else toString n

/-- `date.strftime("%d.%m.%Y")` — day.month.year. -/
def formatDMY (d : DateTime) : String := pad2 d.day ++ "." ++ pad2 d.month ++ "." ++ pad4 d.year

/-! ### String primitives mirroring the Python/SQLite operations used -/

/-- Python `str` whitespace for `split()`/`strip()` (ASCII range; the posts
processed by the program use no exotic Unicode space). -/
def pyWhite (c : Char) : Bool :=
  c == ' ' || c == '\t' || c == '\n' || c == '\r' || c == '\x0b' || c == '\x0c'

/-- Python `str.lower()` restricted to the alphabets the program processes:
ASCII `A`–`Z` and Cyrillic `А`–`Я`, `Ё`. -/
def lowerChar (c : Char) : Char :=
  if 'A' ≤ c ∧ c ≤ 'Z' then Char.ofNat (c.toNat + 32)
  else if 0x410 ≤ c.toNat ∧ c.toNat ≤ 0x42F then Char.ofNat (c.toNat + 0x20)
  else if c.toNat = 0x401 then Char.ofNat 0x451
  else c

/-- Python `str.lower()` on a whole string. -/
def toLowerPy (s : String) : String := ⟨s.toList.map lowerChar⟩

/-- ASCII-only lowering, matching SQLite `LIKE` case folding. -/
def asciiLowerChar (c : Char) : Char :=
  if 'A' ≤ c ∧ c ≤ 'Z' then Char.ofNat (c.toNat + 32) else c

/-- ASCII-only lowering on a whole string. -/
def asciiLower (s : String) : String := ⟨s.toList.map asciiLowerChar⟩

/-- Python `s[:n]` — the first `n` code points. -/
def takeChars (s : String) (n : Nat) : String := ⟨s.toList.take n⟩

/-- Python `str.strip()` (no argument): drop whitespace from both ends. -/
def pyStrip (s : String) : String :=
  ⟨((s.toList.dropWhile pyWhite).reverse.dropWhile pyWhite).reverse⟩

/-- Python `str.strip(chars)`: drop characters of `set` from both ends. -/
def stripSet (set : List Char) (s : String) : String :=
  ⟨((s.toList.dropWhile set.contains).reverse.dropWhile set.contains).reverse⟩

/-- Python `str.lstrip(chars)`: drop characters of `set` from the front. -/
def lstripSet (set : List Char) (s : String) : String :=
  ⟨s.toList.dropWhile set.contains⟩

/-- Character-level splitter: cut at every character satisfying `p`
(consecutive separators produce empty tokens, as Python `split(sep)`
does). -/
def splitChars (p : Char → Bool) : List Char → List Char → List String
  | [], acc => [⟨acc.reverse⟩]
  | c :: cs, acc =>
    if p c then ⟨acc.reverse⟩ :: splitChars p cs [] else splitChars p cs (c :: acc)

/-- Python `str.split()` with no argument: split on whitespace runs,
discarding empty tokens. -/
def pySplit (s : String) : List String :=
  (splitChars pyWhite s.toList []).filter (fun t => t ≠ "")

/-- `pat` occurs at the start of `l`. -/
def leadsWith : List Char → List Char → Bool
  | [], _ => true
  | _ :: _, [] => false
  | a :: as, b :: bs => a == b && leadsWith as bs

/-- `pat` occurs somewhere inside `hay` (contiguously). -/
def containsSeq (pat : List Char) : List Char → Bool
  | [] => leadsWith pat []
  | c :: rest => leadsWith pat (c :: rest) || containsSeq pat rest

/-- Substring test on strings. -/
def containsSub (hay sub : String) : Bool := containsSeq sub.toList hay.toList

/-- Python `str.startswith` on strings. -/
def startsWithPy (s pre : String) : Bool := leadsWith pre.toList s.toList

/-- SQLite `text LIKE '%term%'`: case-insensitive (ASCII) substring match;
a `NULL` text never matches. -/
def textLike (text : Option String) (term : String) : Bool :=
  match text with
  | some t => containsSub (asciiLower t) (asciiLower term)
  | none => false

/-- Python truthiness of an `Optional[str]`: `None` and `""` are falsy. -/
def optStrTruthy (o : Option String) : Bool :=
  match o with
  | some s => s ≠ ""
  | none => false

/-! ### Data model (`models/schemas.py`) -/

/-- `Post` (pydantic): one ingested Telegram message. -/
structure Post where
  id : Int
  channel_id : Int
  tg_post_id : Int
  date : DateTime
  text : Option String
  link : Option String
  created_at : Option DateTime
deriving DecidableEq, Repr

/-- `Channel` (pydantic): one content source inside a folder. -/
structure Channel where
  id : Int
  folder_id : Int
  tg_id : Int
  username : Option String
  title : Option String
  created_at : Option DateTime
deriving DecidableEq, Repr

/-- `Folder` (pydantic): a user-defined grouping of channels. -/
structure Folder where
  id : Int
  user_id : Option Int
  name : String
  created_at : Option DateTime
deriving DecidableEq, Repr

/-- `PostSummary` (pydantic): the per-post digest the pipeline builds. -/
structure PostSummary where
  post_id : Int
  channel_title : String
  date : DateTime
  summary : String
  link : Option String
deriving DecidableEq, Repr

/-- `Summary` (pydantic): the folder summary returned by the pipeline. -/
structure Summary where
  folder_name : String
  total_posts : Nat
  date_range : String
  main_topics : List String
  posts : List PostSummary
  overall_summary : String
deriving DecidableEq, Repr

/-- `AIResponse` (pydantic): answer to a free-text question.  `confidence`
is a stored constant (never computed with), modelled as a rational. -/
structure AIResponse where
  question : String
  answer : String
  related_posts : List Int
  confidence : ℚ
deriving DecidableEq, Repr

/-! ### Store reader (`core/database.py`), as pure queries over row lists -/

/-- The three-table store consumed read-only by the pipeline. -/
structure Database where
  folders : List Folder
  channels : List Channel
  posts : List Post
deriving Repr

/-- Row lookup backing the SQL join `ON p.channel_id = c.id` (channel ids
are a primary key, so `find?` is the join). -/
def findChannel (channels : List Channel) (cid : Int) : Option Channel :=
  channels.find? (fun c => c.id == cid)

/-- `get_folder`: `SELECT ... FROM folders WHERE id = ?`. -/
def getFolder (db : Database) (folderId : Int) : Option Folder :=
  db.folders.find? (fun f => f.id == folderId)

/-- `get_channels_in_folder`: channels of one folder.  The SQL `ORDER BY
title` is dropped: the pipeline consumes this list only through an id-keyed
dict and through its length, both order-independent. -/
def getChannelsInFolder (db : Database) (folderId : Int) : List Channel :=
  db.channels.filter (fun c => c.folder_id == folderId)

/-- Stable insertion step for `ORDER BY p.date DESC`. -/
def insertByDateDesc (x : Post) : List Post → List Post
  | [] => [x]
  | y :: ys => if DateTime.ltb x.date y.date then y :: insertByDateDesc x ys else x :: y :: ys

/-- `ORDER BY p.date DESC` (stable; SQLite fixes no tie order, and no claim
depends on one). -/
def sortByDateDesc (l : List Post) : List Post := l.foldr insertByDateDesc []

/-- SQL `LIMIT` combined with the Python caller's `if limit:` truthiness:
`none` and `some 0` mean no cap. -/
def applyLimit (limit : Option Nat) (l : List Post) : List Post :=
  match limit with
  | some n => if n == 0 then l else l.take n
  | none => l

/-- `get_posts_by_folder`: posts joined through their channel to the folder,
optionally filtered to `p.date >= cutoff`, ordered by date descending,
capped to `limit`.  `cutoff` is the caller-computed
`datetime.now() - timedelta(days=days_back)` (`none` when `days_back` is
falsy). -/
def getPostsByFolder (db : Database) (folderId : Int) (limit : Option Nat)
    (cutoff : Option DateTime) : List Post :=
  let joined := db.posts.filter (fun p =>
    match findChannel db.channels p.channel_id with
    | some c => c.folder_id == folderId
    | none => false)
  let filtered := match cutoff with
    | some cut => joined.filter (fun p => cut.key ≤ p.date.key)
    | none => joined
  applyLimit limit (sortByDateDesc filtered)

/-- `search_posts`: posts of the folder whose text SQLite-`LIKE`-matches
`'%term%'`, ordered by date descending, `LIMIT limit` (always applied). -/
def searchPosts (db : Database) (folderId : Int) (term : String) (limit : Nat) : List Post :=
  let matched := db.posts.filter (fun p =>
    (match findChannel db.channels p.channel_id with
     | some c => c.folder_id == folderId
     | none => false) && textLike p.text term)
  (sortByDateDesc matched).take limit

/-! ### Completion client (`core/ai_client.py`) -/

/-- Outcome of one transport attempt of a client HTTP call: the delivered
payload, or the two `httpx` failure families the code distinguishes.  For
the streaming endpoint the payload is the aggregated stream content (the
concatenation of the `"content"` fields of the `data:` lines); SSE line
framing and JSON decoding of individual lines are absorbed into the
transport oracle. -/
inductive ReqOutcome
  | ok (payload : String)
  | statusError (msg : String)
  | requestError (msg : String)
deriving DecidableEq, Repr

/-- The exception a client call raises to its caller. -/
inductive ReqError
  | statusError (msg : String)
  | requestError (msg : String)
deriving DecidableEq, Repr

/-- Python `str(e)` of the raised exception. -/
def errText : ReqError → String
  | .statusError m => m
  | .requestError m => m

/-- An attempt outcome that raises rather than returns. -/
def outcomeFails : ReqOutcome → Bool
  | .ok _ => false
  | .statusError _ => true
  | .requestError _ => true

/-- `_make_request`: perform attempt `retryCount` drawn from the transport
oracle; on `HTTPStatusError` or `RequestError`, if `retryCount <
maxRetries`, sleep `2 ** retryCount` seconds and recurse with
`retryCount + 1`, else re-raise.  Returns the result together with the list
of sleeps performed (in seconds), making the backoff schedule observable. -/
def makeRequest (maxRetries : Nat) (transport : Nat → ReqOutcome) (retryCount : Nat) :
    Except ReqError String × List Nat :=
  match transport retryCount with
  | .ok v => (.ok v, [])
  | .statusError m =>
    if h : retryCount < maxRetries then
      let r := makeRequest maxRetries transport (retryCount + 1)
      (r.1, 2 ^ retryCount :: r.2)
    else (.error (.statusError m), [])
  | .requestError m =>
    if h : retryCount < maxRetries then
      let r := makeRequest maxRetries transport (retryCount + 1)
      (r.1, 2 ^ retryCount :: r.2)
    else (.error (.requestError m), [])
termination_by maxRetries - retryCount
decreasing_by
  all_goals omega

/-- `_make_stream_request`: a single POST to the conversation endpoint —
one transport attempt, no retry; on success the aggregated stream content
is `strip()`ped, on failure the exception is logged and re-raised. -/
def makeStreamRequest (transport : Nat → ReqOutcome) : Except ReqError String :=
  match transport 0 with
  | .ok content => .ok (pyStrip content)
  | .statusError m => .error (.statusError m)
  | .requestError m => .error (.requestError m)

/-- Outcome of the liveness-probe GET: a status code, or a raised
exception (connection failure etc.). -/
inductive ProbeOutcome
  | ok (status : Nat)
  | exn
deriving DecidableEq, Repr

/-- `health_check`: `GET <base_url>/chat/`, then `raise_for_status()`
(which raises on any non-2xx status); every exception is swallowed and
reported as `false`. -/
def healthCheck (baseUrl : String) (get : String → ProbeOutcome) : Bool :=
  match get (baseUrl ++ "/chat/") with
  | .ok status => if 200 ≤ status ∧ status < 300 then true else false
  | .exn => false

/-- `generate_summary`: fixed message on empty input; otherwise one stream
request, truncated to `maxLength` when non-empty, a fixed error message when
empty, and an error-describing string (the exception is caught, not
re-raised) when the request fails. -/
def generateSummary (transport : Nat → ReqOutcome) (posts : List Post)
    (maxLength : Nat) : String :=
  if posts.isEmpty then "Нет постов для анализа."
  else
    match makeStreamRequest transport with
    | .ok response =>
      if response ≠ "" then takeChars response maxLength else "Ошибка при генерации сводки."
    | .error e => "Ошибка при генерации сводки: " ++ errText e

/-- `answer_question`: same contract as `generate_summary`, with its own
messages (the `question` enters only the prompt, which the transport oracle
absorbs). -/
def answerQuestion (transport : Nat → ReqOutcome) (posts : List Post)
    (question : String) (maxLength : Nat) : String :=
  if posts.isEmpty then "Нет постов для анализа."
  else
    match makeStreamRequest transport with
    | .ok response =>
      if response ≠ "" then takeChars response maxLength else "Ошибка при генерации ответа."
    | .error e => "Ошибка при генерации ответа: " ++ errText e

/-- Result of `json.loads` applied to the extracted `[...]` segment:
a JSON array (of topic strings), a `JSONDecodeError`/`ValueError` (caught by
the inner `except`), or a value of another shape whose `[:7]` slice raises
`TypeError` (caught only by the outer `except`, yielding `[]`). -/
inductive ParseResult
  | arr (topics : List String)
  | decodeFail
  | typeFail
deriving DecidableEq, Repr

/-- The segment `response[start:end]` with `start = response.find('[')` and
`end = response.rfind(']') + 1`, when both brackets occur (`none`
otherwise); the Python slice is empty when `]` comes first. -/
def extractJsonSegment (s : String) : Option String :=
  let cs := s.toList
  match cs.findIdx? (fun c => c == '['), (cs.reverse.findIdx? (fun c => c == ']')) with
  | some st, some rj =>
    let en := cs.length - 1 - rj + 1
    some ⟨(cs.drop st).take (en - st)⟩
  | _, _ => none

/-- `_extract_topics_from_text`: split on newlines, `strip()` each line,
keep lines that are non-empty and do not start with the boilerplate
markers, `lstrip` enumeration characters, keep results of length 4–99,
cap to 7. -/
def extractTopicsFromText (text : String) : List String :=
  let topics := (splitChars (fun c => c == '\n') text.toList []).filterMap (fun l =>
    let line := pyStrip l
    if line ≠ "" ∧
        ¬(startsWithPy line "Задача:" || startsWithPy line "Ответ:" || startsWithPy line "Анализ:") then
      let clean := lstripSet "0123456789.-* ".toList line
      if 3 < clean.length ∧ clean.length < 100 then some clean else none
    else none)
  topics.take 7

/-- `extract_topics`: empty on empty input; one stream request (outer
`except` returns `[]` on its failure); on a non-empty reply, locate the
`[...]` segment and `json.loads` it — an array is capped to 7, a decode
failure falls back to `_extract_topics_from_text`, any other shape escapes
to the outer `except` (`[]`); no segment or an empty reply give `[]`. -/
def extractTopics (transport : Nat → ReqOutcome) (parse : String → ParseResult)
    (posts : List Post) : List String :=
  if posts.isEmpty then []
  else
    match makeStreamRequest transport with
    | .error _ => []
    | .ok response =>
      if response ≠ "" then
        match extractJsonSegment response with
        | some seg =>
          match parse seg with
          | .arr topics => topics.take 7
          | .decodeFail => extractTopicsFromText response
          | .typeFail => []
        | none => []
      else []

/-! ### Summarization pipeline (`core/summariser.py`) -/

/-- The truncated digest text:
`post.text[:200] + "..." if post.text and len(post.text) > 200 else (post.text or "Нет текста")`
(Python truthiness: `None` and `""` both yield the placeholder). -/
def truncateText (text : Option String) : String :=
  match text with
  | some t =>
    if t ≠ "" ∧ t.length > 200 then takeChars t 200 ++ "..."
    else if t ≠ "" then t else "Нет текста"
  | none => "Нет текста"

/-- Python dict `{c.id: c for c in channels}` followed by `.get(cid)`:
with duplicate keys the last binding wins, hence the reversed search. -/
def channelDict (channels : List Channel) (cid : Int) : Option Channel :=
  channels.reverse.find? (fun c => c.id == cid)

/-- The per-post digest construction shared by `summarise_folder` and
`search_and_summarise` (summariser.py lines 90–107 / 249–265): resolve the
channel from the folder's channel dict, fall back to a fixed title, and
build the permalink from the stored link (truthiness test) or the
`https://t.me/<username>/<tg_post_id>` fallback. -/
def buildPostSummary (channels : List Channel) (post : Post) : PostSummary :=
  let channel := channelDict channels post.channel_id
  let channelTitle : Option String :=
    match channel with
    | some c => c.title
    | none => some "Неизвестный канал"
  let postLink : Option String :=
    if optStrTruthy post.link then post.link
    else
      match channel with
      | some c =>
        if optStrTruthy c.username then
          some ("https://t.me/" ++ c.username.getD "" ++ "/" ++ toString post.tg_post_id)
        else none
      | none => none
  { post_id := post.id
    channel_title := channelTitle.getD ""
    date := post.date
    summary := truncateText post.text
    link := postLink }

/-- One step of the word-frequency dict update: Python
`word_count[word] = word_count.get(word, 0) + 1` preserving insertion
order. -/
def bumpCount : List (String × Nat) → String → List (String × Nat)
  | [], w => [(w, 1)]
  | (k, v) :: rest, w => if k = w then (k, v + 1) :: rest else (k, v) :: bumpCount rest w

/-- The fixed Russian stop-word set of `_extract_simple_topics`. -/
def commonWords : List String :=
  ["и", "в", "на", "с", "по", "для", "от", "до", "из", "за", "под", "над",
   "при", "про", "о", "об", "а", "но", "или", "что", "как", "где", "когда",
   "почему", "это", "то", "так", "все", "еще", "уже", "только", "даже",
   "тоже", "также"]

/-- The punctuation set stripped from candidate words. -/
def punctSet : List Char := ".,!?;:()[]\x7b\x7d\"\x27-".toList

/-- The candidate words one post contributes: lower-cased whitespace
tokens, stripped of surrounding punctuation, kept when longer than 3
characters and not a stop word (posts without text contribute nothing). -/
def postWords (text : Option String) : List String :=
  match text with
  | some t =>
    if t ≠ "" then
      (pySplit (toLowerPy t)).filterMap (fun w =>
        let word := stripSet punctSet w
        if 3 < word.length ∧ ¬ commonWords.contains word then some word else none)
    else []
  | none => []

/-- Stable insertion step for Python
`sorted(word_count.items(), key=count, reverse=True)`: an earlier item goes
before later items of equal count. -/
def insertByCountDesc (x : String × Nat) : List (String × Nat) → List (String × Nat)
  | [] => [x]
  | y :: ys => if x.2 < y.2 then y :: insertByCountDesc x ys else x :: y :: ys

/-- `_extract_simple_topics`: count candidate words across all posts in
encounter order, sort by count descending (stable), return the top 5
words. -/
def extractSimpleTopics (posts : List Post) : List String :=
  let counts := posts.foldl (fun acc p => (postWords p.text).foldl bumpCount acc) []
  let sorted := counts.foldr insertByCountDesc []
  (sorted.take 5).map (fun p => p.1)

/-- `_find_related_posts`: ids of posts whose lower-cased whitespace tokens
intersect the question's lower-cased whitespace tokens, in fetch order,
capped to 5 (`if post.text:` skips textless posts). -/
def findRelatedPosts (posts : List Post) (question : String) : List Int :=
  let questionWords := pySplit (toLowerPy question)
  let related := posts.filterMap (fun post =>
    match post.text with
    | some t =>
      if t ≠ "" ∧ (pySplit (toLowerPy t)).any (fun w => questionWords.contains w) then
        some post.id
      else none
    | none => none)
  related.take 5

/-- The remote interactions a pipeline operation can perform, in order. -/
inductive RemoteCall
  | probe
  | extractTopicsCall
  | generateSummaryCall
  | answerQuestionCall
deriving DecidableEq, Repr

/-- The client as the pipeline sees it: the probe transport plus one
attempt-indexed stream oracle per call site (distinct remote invocations
are independent network events) and the JSON-decoding oracle of
`extract_topics`. -/
structure ClientEnv where
  baseUrl : String
  get : String → ProbeOutcome
  topicTransport : Nat → ReqOutcome
  summaryTransport : Nat → ReqOutcome
  answerTransport : Nat → ReqOutcome
  parse : String → ParseResult

/-- `summarise_folder`, instrumented with the list of remote calls it
performs.  The embedded client operations are total (each catches its own
exceptions, and the store queries are pure), so the `except` branches of
the Python body — the AI-error fallback at lines 129–132 and the outer
catch-all returning `None` — are unreachable and carry no behaviour
here. -/
def summariseFolder (db : Database) (env : ClientEnv) (folderId : Int)
    (limit : Option Nat) (cutoff : Option DateTime) (includeAISummary : Bool) :
    Option Summary × List RemoteCall :=
  match getFolder db folderId with
  | none => (none, [])
  | some folder =>
    match getPostsByFolder db folderId limit cutoff with
    | [] =>
      (some { folder_name := folder.name
              total_posts := 0
              date_range := "Нет данных"
              main_topics := []
              posts := []
              overall_summary := "В указанный период постов не найдено." }, [])
    | p0 :: rest =>
      let posts := p0 :: rest
      let channels := getChannelsInFolder db folderId
      let postSummaries := (posts.take 20).map (buildPostSummary channels)
      let dateRange :=
        formatDMY (pyMinDate p0.date (rest.map (fun p => p.date))) ++ " - " ++
        formatDMY (pyMaxDate p0.date (rest.map (fun p => p.date)))
      if includeAISummary then
        if healthCheck env.baseUrl env.get then
          (some { folder_name := folder.name
                  total_posts := posts.length
                  date_range := dateRange
                  main_topics := extractTopics env.topicTransport env.parse (posts.take 20)
                  posts := postSummaries
                  overall_summary := generateSummary env.summaryTransport (posts.take 20) 1000 },
           [.probe, .extractTopicsCall, .generateSummaryCall])
        else
          (some { folder_name := folder.name
                  total_posts := posts.length
                  date_range := dateRange
                  main_topics := extractSimpleTopics posts
                  posts := postSummaries
                  overall_summary := "ИИ-сервис недоступен. Показаны только краткие описания постов." },
           [.probe])
      else
        (some { folder_name := folder.name
                total_posts := posts.length
                date_range := dateRange
                main_topics := extractSimpleTopics posts
                posts := postSummaries
                overall_summary :=
                  "Проанализировано " ++ toString posts.length ++ " постов из " ++
                  toString channels.length ++ " каналов." },
         [])

/-- `ask_about_posts`, instrumented like `summariseFolder`; the outer
catch-all (error-describing `AIResponse`) is likewise unreachable. -/
def askAboutPosts (db : Database) (env : ClientEnv) (folderId : Int)
    (question : String) (limit : Option Nat) (cutoff : Option DateTime) :
    Option AIResponse × List RemoteCall :=
  match getPostsByFolder db folderId limit cutoff with
  | [] =>
    (some { question := question
            answer := "В указанный период постов не найдено для анализа."
            related_posts := []
            confidence := 0 }, [])
  | p0 :: rest =>
    let posts := p0 :: rest
    if healthCheck env.baseUrl env.get then
      (some { question := question
              answer := answerQuestion env.answerTransport (posts.take 20) question 1500
              related_posts := findRelatedPosts posts question
              confidence := (4 : ℚ) / 5 },
       [.probe, .answerQuestionCall])
    else
      (some { question := question
              answer := "ИИ-сервис недоступен. Попробуйте позже."
              related_posts := []
              confidence := 0 },
       [.probe])

/-- `search_and_summarise`, instrumented like `summariseFolder`: substring
search instead of the date-filtered fetch, digests over **all** matched
posts, folder-name fallback when the folder row is missing, and the
AI-or-fallback narrative logic with its own messages. -/
def searchAndSummarise (db : Database) (env : ClientEnv) (folderId : Int)
    (searchTerm : String) (limit : Nat) : Option Summary × List RemoteCall :=
  match searchPosts db folderId searchTerm limit with
  | [] =>
    (some { folder_name := "Поиск: " ++ searchTerm
            total_posts := 0
            date_range := "Нет результатов"
            main_topics := []
            posts := []
            overall_summary := "По запросу \x27" ++ searchTerm ++ "\x27 ничего не найдено." }, [])
  | p0 :: rest =>
    let posts := p0 :: rest
    let folderName :=
      match getFolder db folderId with
      | some f => f.name
      | none => "Папка " ++ toString folderId
    let channels := getChannelsInFolder db folderId
    let postSummaries := posts.map (buildPostSummary channels)
    let dateRange :=
      formatDMY (pyMinDate p0.date (rest.map (fun p => p.date))) ++ " - " ++
      formatDMY (pyMaxDate p0.date (rest.map (fun p => p.date)))
    if healthCheck env.baseUrl env.get then
      (some { folder_name := folderName ++ " - Поиск: " ++ searchTerm
              total_posts := posts.length
              date_range := dateRange
              main_topics := extractTopics env.topicTransport env.parse posts
              posts := postSummaries
              overall_summary := generateSummary env.summaryTransport posts 1000 },
       [.probe, .extractTopicsCall, .generateSummaryCall])
    else
      (some { folder_name := folderName ++ " - Поиск: " ++ searchTerm
              total_posts := posts.length
              date_range := dateRange
              main_topics := extractSimpleTopics posts
              posts := postSummaries
              overall_summary :=
                "Найдено " ++ toString posts.length ++ " постов по запросу \x27" ++
                searchTerm ++ "\x27." },
       [.probe])

/-! ### Spec-side definitions (worded from the claims, for refinement) -/

/-- The username-based permalink fallback, as the amended claim C8 words
it: `https://t.me/<username>/<tg_post_id>` when the post's channel
resolves and carries a non-empty username, absent otherwise. -/
def usernameFallback (channels : List Channel) (p : Post) : Option String :=
  match channelDict channels p.channel_id with
  | some c =>
    match c.username with
    | some u =>
      if u ≠ "" then some ("https://t.me/" ++ u ++ "/" ++ toString p.tg_post_id) else none
    | none => none
  | none => none

/-- The permalink rule as the amended claim C8 words it: the stored link
when present and non-empty, otherwise the username fallback. -/
def linkSpec (channels : List Channel) (p : Post) : Option String :=
  match p.link with
  | some l => if l ≠ "" then some l else usernameFallback channels p
  | none => usernameFallback channels p

/-- The digest text as claim C10 words it: truncation to 200 characters
with an appended ellipsis when the text exceeds 200 characters, the full
text when it does not, the fixed placeholder when the post has no text
(absent or empty). -/
def summarySpec (text : Option String) : String :=
  match text with
  | some t =>
    if t.length > 200 then takeChars t 200 ++ "..."
    else if t = "" then "Нет текста" else t
  | none => "Нет текста"

/-- A post shares a whitespace token with the question after lower-casing
(claim C9's wording; a textless post shares nothing). -/
def sharesQuestionToken (question : String) (p : Post) : Bool :=
  match p.text with
  | some t => (pySplit (toLowerPy t)).any (fun w => (pySplit (toLowerPy question)).contains w)
  | none => false

/-- The related-post list as claim C9 words it: identifiers of fetched
posts sharing a token with the question, in fetch order, capped to 5. -/
def relatedSpec (posts : List Post) (question : String) : List Int :=
  ((posts.filter (sharesQuestionToken question)).map (fun p => p.id)).take 5

/-- Referential integrity of the store: every channel's `folder_id`
references an existing folder row. -/
def refIntegrity (db : Database) : Bool :=
  db.channels.all (fun c => db.folders.any (fun f => f.id == c.folder_id))

/-! ### Result projections (used to state closed counterexamples) -/

/-- The permalinks of the digests of a summary result. -/
def digestLinks (r : Option Summary) : List (Option String) :=
  match r with
  | some s => s.posts.map (fun d => d.link)
  | none => []

/-- The number of digests of a summary result. -/
def digestCount (r : Option Summary) : Nat :=
  match r with
  | some s => s.posts.length
  | none => 0

/-- The date-range string of a summary result. -/
def dateRangeOf (r : Option Summary) : Option String :=
  match r with
  | some s => some s.date_range
  | none => none

/-- All posts of a list are stamped on the given formatted calendar day. -/
def allOnDay (l : List Post) (d : String) : Bool :=
  l.all (fun p => formatDMY p.date == d)

/-- An exception-shaped client-call result. -/
def exceptFailed : Except ReqError String → Bool
  | .ok _ => false
  | .error _ => true

/-! ### Concrete fixtures for counterexamples and witnesses -/

/-- 01.01.2024, 10:00. -/
def dtMorning : DateTime := ⟨2024, 1, 1, 10, 0, 0⟩

/-- 01.01.2024, 15:30 — same calendar day, later time. -/
def dtAfternoon : DateTime := ⟨2024, 1, 1, 15, 30, 0⟩

/-- A folder row with id 1. -/
def exFolder : Folder := ⟨1, none, "Новости", none⟩

/-- A channel of folder 1 with a username handle. -/
def exChannel : Channel := ⟨1, 1, 100, some "chan", some "Канал", none⟩

/-- A post whose stored link is present but empty. -/
def exPostEmptyLink : Post := ⟨1, 1, 10, dtMorning, some "срочные новости про технологии", some "", none⟩

/-- A post with no stored link. -/
def exPostNoLink : Post := ⟨2, 1, 11, dtAfternoon, some "новости спорта сегодня", none, none⟩

/-- A two-post store over one folder and one channel. -/
def exDb : Database := ⟨[exFolder], [exChannel], [exPostEmptyLink, exPostNoLink]⟩

/-- The same store with no posts. -/
def exDbNoPosts : Database := ⟨[exFolder], [exChannel], []⟩

/-- A client whose probe raises and whose transports fail. -/
def exEnvDown : ClientEnv :=
  ⟨"http://h", fun _ => ProbeOutcome.exn, fun _ => ReqOutcome.requestError "boom",
   fun _ => ReqOutcome.requestError "boom", fun _ => ReqOutcome.requestError "boom",
   fun _ => ParseResult.decodeFail⟩

/-- A healthy client: probe 200, all transports deliver, topics decode. -/
def exEnvUp : ClientEnv :=
  ⟨"http://h", fun _ => ProbeOutcome.ok 200, fun _ => ReqOutcome.ok "[x]",
   fun _ => ReqOutcome.ok "Сводка", fun _ => ReqOutcome.ok "Ответ",
   fun _ => ParseResult.arr ["тема"]⟩

/-- 21 posts on one channel, all containing the term "пост". -/
def exManyPosts : List Post :=
  (List.range 21).map (fun i => ⟨(i : Int), 1, (i : Int), dtMorning, some "пост номер", none, none⟩)

/-- A store whose folder 1 holds 21 matching posts. -/
def exDbMany : Database := ⟨[exFolder], [exChannel], exManyPosts⟩

/-- A probe oracle under which `GET <base>/v1/models` succeeds but
`GET <base>/chat/` raises. -/
def exProbeModelsOnly : String → ProbeOutcome :=
  fun url => if url = "http://h/v1/models" then ProbeOutcome.ok 200 else ProbeOutcome.exn

/-- A transport failing transiently on the first attempt only. -/
def exFailThenOk : Nat → ReqOutcome :=
  fun n => if n = 0 then ReqOutcome.requestError "boom" else ReqOutcome.ok "OK"

/-- A transport failing with a status error first, then delivering. -/
def exStatusThenOk : Nat → ReqOutcome :=
  fun n => if n = 0 then ReqOutcome.statusError "500" else ReqOutcome.ok "OK"

/-- A transport failing on every attempt. -/
def exAlwaysFail : Nat → ReqOutcome := fun _ => ReqOutcome.requestError "down"

/-! ### Helper lemmas -/

theorem extractTopicsFromText_length_le (t : String) : (extractTopicsFromText t).length ≤ 7 := by
  unfold extractTopicsFromText
  exact List.length_take_le 7 _

theorem extractTopics_length_le (tr : Nat → ReqOutcome) (parse : String → ParseResult)
    (posts : List Post) : (extractTopics tr parse posts).length ≤ 7 := by
  unfold extractTopics
  split
  · simp
  · split
    · simp
    · split
      · split
        · split
          · exact List.length_take_le 7 _
          · exact extractTopicsFromText_length_le _
          · simp
        · simp
      · simp

theorem extractSimpleTopics_length_le (posts : List Post) :
    (extractSimpleTopics posts).length ≤ 5 := by
  unfold extractSimpleTopics
  simp only [List.length_map]
  exact List.length_take_le 5 _

theorem pyMinDate_le_start (ds : List DateTime) (d : DateTime) :
    (pyMinDate d ds).key ≤ d.key := by
  induction ds generalizing d with
  | nil => exact Nat.le_refl _
  | cons b bs ih =>
    show (pyMinDate (if DateTime.ltb b d = true then b else d) bs).key ≤ d.key
    by_cases h : DateTime.ltb b d = true
    · rw [if_pos h]
      have hb : b.key ≤ d.key := Nat.le_of_lt (by simpa [DateTime.ltb] using h)
      exact Nat.le_trans (ih b) hb
    · rw [if_neg h]
      exact ih d

theorem pyMinDate_le_mem (ds : List DateTime) (d x : DateTime) (hx : x ∈ ds) :
    (pyMinDate d ds).key ≤ x.key := by
  induction ds generalizing d with
  | nil => cases hx
  | cons b bs ih =>
    show (pyMinDate (if DateTime.ltb b d = true then b else d) bs).key ≤ x.key
    rcases List.mem_cons.mp hx with rfl | hx'
    · by_cases h : DateTime.ltb x d = true
      · rw [if_pos h]
        exact pyMinDate_le_start bs x
      · rw [if_neg h]
        have hdx : d.key ≤ x.key := Nat.le_of_not_lt (by simpa [DateTime.ltb] using h)
        exact Nat.le_trans (pyMinDate_le_start bs d) hdx
    · by_cases h : DateTime.ltb b d = true
      · rw [if_pos h]; exact ih _ hx'
      · rw [if_neg h]; exact ih _ hx'

theorem pyMinDate_mem (ds : List DateTime) (d : DateTime) :
    pyMinDate d ds ∈ d :: ds := by
  induction ds generalizing d with
  | nil => exact List.mem_singleton.mpr rfl
  | cons b bs ih =>
    show pyMinDate (if DateTime.ltb b d = true then b else d) bs ∈ d :: b :: bs
    by_cases h : DateTime.ltb b d = true
    · rw [if_pos h]
      exact List.mem_cons_of_mem _ (ih b)
    · rw [if_neg h]
      rcases List.mem_cons.mp (ih d) with heq | hm
      · rw [heq]; exact List.mem_cons_self _ _
      · exact List.mem_cons_of_mem _ (List.mem_cons_of_mem _ hm)

theorem pyMaxDate_ge_start (ds : List DateTime) (d : DateTime) :
    d.key ≤ (pyMaxDate d ds).key := by
  induction ds generalizing d with
  | nil => exact Nat.le_refl _
  | cons b bs ih =>
    show d.key ≤ (pyMaxDate (if DateTime.ltb d b = true then b else d) bs).key
    by_cases h : DateTime.ltb d b = true
    · rw [if_pos h]
      have hb : d.key ≤ b.key := Nat.le_of_lt (by simpa [DateTime.ltb] using h)
      exact Nat.le_trans hb (ih b)
    · rw [if_neg h]
      exact ih d

theorem pyMaxDate_ge_mem (ds : List DateTime) (d x : DateTime) (hx : x ∈ ds) :
    x.key ≤ (pyMaxDate d ds).key := by
  induction ds generalizing d with
  | nil => cases hx
  | cons b bs ih =>
    show x.key ≤ (pyMaxDate (if DateTime.ltb d b = true then b else d) bs).key
    rcases List.mem_cons.mp hx with rfl | hx'
    · by_cases h : DateTime.ltb d x = true
      · rw [if_pos h]
        exact pyMaxDate_ge_start bs x
      · rw [if_neg h]
        have hxd : x.key ≤ d.key := Nat.le_of_not_lt (by simpa [DateTime.ltb] using h)
        exact Nat.le_trans hxd (pyMaxDate_ge_start bs d)
    · by_cases h : DateTime.ltb d b = true
      · rw [if_pos h]; exact ih _ hx'
      · rw [if_neg h]; exact ih _ hx'

theorem pyMaxDate_mem (ds : List DateTime) (d : DateTime) :
    pyMaxDate d ds ∈ d :: ds := by
  induction ds generalizing d with
  | nil => exact List.mem_singleton.mpr rfl
  | cons b bs ih =>
    show pyMaxDate (if DateTime.ltb d b = true then b else d) bs ∈ d :: b :: bs
    by_cases h : DateTime.ltb d b = true
    · rw [if_pos h]
      exact List.mem_cons_of_mem _ (ih b)
    · rw [if_neg h]
      rcases List.mem_cons.mp (ih d) with heq | hm
      · rw [heq]; exact List.mem_cons_self _ _
      · exact List.mem_cons_of_mem _ (List.mem_cons_of_mem _ hm)

theorem buildPostSummary_post_id (channels : List Channel) (p : Post) :
    (buildPostSummary channels p).post_id = p.id := rfl

theorem buildPostSummary_summary (channels : List Channel) (p : Post) :
    (buildPostSummary channels p).summary = truncateText p.text := rfl

theorem buildPostSummary_link (channels : List Channel) (p : Post) :
    (buildPostSummary channels p).link = linkSpec channels p := by
  cases hl : p.link with
  | some l =>
    by_cases hne : l = ""
    · cases hc : channelDict channels p.channel_id with
      | none => simp [buildPostSummary, linkSpec, usernameFallback, optStrTruthy, hl, hc, hne]
      | some c =>
        cases hu : c.username with
        | none => simp [buildPostSummary, linkSpec, usernameFallback, optStrTruthy, hl, hc, hne, hu]
        | some u =>
          by_cases hu0 : u = "" <;>
            simp [buildPostSummary, linkSpec, usernameFallback, optStrTruthy, hl, hc, hne, hu, hu0]
    · simp [buildPostSummary, linkSpec, optStrTruthy, hl, hne]
  | none =>
    cases hc : channelDict channels p.channel_id with
    | none => simp [buildPostSummary, linkSpec, usernameFallback, optStrTruthy, hl, hc]
    | some c =>
      cases hu : c.username with
      | none => simp [buildPostSummary, linkSpec, usernameFallback, optStrTruthy, hl, hc, hu]
      | some u =>
        by_cases hu0 : u = "" <;>
          simp [buildPostSummary, linkSpec, usernameFallback, optStrTruthy, hl, hc, hu, hu0]

theorem truncateText_eq_spec (t : Option String) : truncateText t = summarySpec t := by
  unfold truncateText summarySpec
  cases t with
  | none => rfl
  | some s =>
    dsimp only
    by_cases hlen : s.length > 200
    · have hne : s ≠ "" := by
        intro h
        rw [h] at hlen
        exact absurd hlen (by decide)
      rw [if_pos ⟨hne, hlen⟩, if_pos hlen]
    · rw [if_neg (fun h => hlen h.2), if_neg hlen]
      by_cases hne : s = ""
      · rw [if_neg (not_not_intro hne), if_pos hne]
      · rw [if_pos hne, if_neg hne]

theorem string_mk_length (l : List Char) : (String.mk l).length = l.length := rfl

theorem summarySpec_length_le (t : Option String) : (summarySpec t).length ≤ 203 := by
  unfold summarySpec
  cases t with
  | none => decide
  | some s =>
    dsimp only
    by_cases hlen : s.length > 200
    · rw [if_pos hlen]
      have h1 : (takeChars s 200 ++ "...").length = (takeChars s 200).length + 3 := by
        rw [String.length_append]
        rfl
      rw [h1]
      have h2 : (takeChars s 200).length ≤ 200 := by
        show (String.mk (s.toList.take 200)).length ≤ 200
        rw [string_mk_length]
        exact le_trans (List.length_take_le 200 _) (Nat.le_refl _)
      omega
    · rw [if_neg hlen]
      by_cases hne : s = ""
      · rw [if_pos hne]; decide
      · rw [if_neg hne]; omega

theorem summarySpec_ne_empty (t : Option String) : summarySpec t ≠ "" := by
  unfold summarySpec
  cases t with
  | none => decide
  | some s =>
    dsimp only
    by_cases hlen : s.length > 200
    · rw [if_pos hlen]
      intro h
      have : (takeChars s 200 ++ "...").length = 0 := by rw [h]; rfl
      rw [String.length_append] at this
      have h3 : ("..." : String).length = 3 := rfl
      omega
    · rw [if_neg hlen]
      by_cases hne : s = ""
      · rw [if_pos hne]; decide
      · rw [if_neg hne]; exact hne

theorem findRelatedPosts_eq_spec (posts : List Post) (q : String) :
    findRelatedPosts posts q = relatedSpec posts q := by
  unfold findRelatedPosts relatedSpec
  dsimp only
  congr 1
  induction posts with
  | nil => rfl
  | cons p ps ih =>
    rw [List.filterMap_cons, List.filter_cons]
    cases ht : p.text with
    | none =>
      have hs : sharesQuestionToken q p = false := by
        unfold sharesQuestionToken
        rw [ht]
      rw [hs]
      dsimp only
      exact ih
    | some t =>
      dsimp only
      by_cases hne : t = ""
      · subst hne
        have hany : ((pySplit (toLowerPy "")).any fun w => (pySplit (toLowerPy q)).contains w) = false := by
          have hsplit : pySplit (toLowerPy "") = [] := by decide
          rw [hsplit]
          rfl
        have hs : sharesQuestionToken q p = false := by
          unfold sharesQuestionToken
          rw [ht]
          exact hany
        have hcond : ¬(("" : String) ≠ "" ∧
            ((pySplit (toLowerPy "")).any fun w => (pySplit (toLowerPy q)).contains w) = true) :=
          fun h => h.1 rfl
        rw [if_neg hcond, hs]
        dsimp only
        exact ih
      · by_cases hany :
            ((pySplit (toLowerPy t)).any fun w => (pySplit (toLowerPy q)).contains w) = true
        · have hs : sharesQuestionToken q p = true := by
            unfold sharesQuestionToken
            rw [ht]
            exact hany
          rw [if_pos ⟨hne, hany⟩, hs]
          dsimp only
          rw [ih, if_pos rfl, List.map_cons]
        · have hs : sharesQuestionToken q p = false := by
            unfold sharesQuestionToken
            rw [ht]
            exact Bool.eq_false_iff.mpr hany
          rw [if_neg (fun h => hany h.2), hs]
          dsimp only
          exact ih

theorem applyLimit_nil (limit : Option Nat) : applyLimit limit [] = [] := by
  unfold applyLimit
  cases limit with
  | none => rfl
  | some n =>
    dsimp only
    by_cases h : (n == 0) = true
    · rw [if_pos h]
    · rw [if_neg h]; exact List.take_nil

/-- In a store with referential integrity, a folder id absent from the
folders table joins to no posts: both fetch queries return the empty
list. -/
theorem absent_folder_queries_empty (db : Database) (folderId : Int)
    (hint : refIntegrity db = true) (habs : getFolder db folderId = none) :
    (∀ limit cutoff, getPostsByFolder db folderId limit cutoff = []) ∧
    (∀ term slimit, searchPosts db folderId term slimit = []) := by
  have hnofold : ∀ f ∈ db.folders, ¬((f.id == folderId) = true) := by
    intro f hf
    exact List.find?_eq_none.mp habs f hf
  have hnochan : ∀ cid, ∀ c, findChannel db.channels cid = some c →
      (c.folder_id == folderId) = false := by
    intro cid c hc
    have hmem : c ∈ db.channels := List.mem_of_find?_eq_some hc
    have hintc := List.all_eq_true.mp hint c hmem
    obtain ⟨f, hf, hfid⟩ := List.any_eq_true.mp hintc
    by_contra hne
    have heq : (c.folder_id == folderId) = true := by
      cases h : (c.folder_id == folderId) with
      | true => rfl
      | false => exact absurd h hne
    have h1 : f.id = c.folder_id := by simpa using hfid
    have h2 : c.folder_id = folderId := by simpa using heq
    exact hnofold f hf (by simp [h1, h2])
  constructor
  · intro limit cutoff
    unfold getPostsByFolder
    dsimp only
    have hjoin : db.posts.filter (fun p =>
        match findChannel db.channels p.channel_id with
        | some c => c.folder_id == folderId
        | none => false) = [] := by
      rw [List.filter_eq_nil_iff]
      intro p _
      cases hc : findChannel db.channels p.channel_id with
      | none => simp
      | some c => simp [hnochan _ _ hc]
    rw [hjoin]
    cases cutoff with
    | none => exact applyLimit_nil limit
    | some cut => simpa using applyLimit_nil limit
  · intro term slimit
    unfold searchPosts
    dsimp only
    have hjoin : db.posts.filter (fun p =>
        (match findChannel db.channels p.channel_id with
         | some c => c.folder_id == folderId
         | none => false) && textLike p.text term) = [] := by
      rw [List.filter_eq_nil_iff]
      intro p _
      cases hc : findChannel db.channels p.channel_id with
      | none => simp
      | some c => simp [hnochan _ _ hc]
    rw [hjoin]
    exact List.take_nil

theorem makeRequest_step_fail (mr : Nat) (t : Nat → ReqOutcome) (rc : Nat)
    (hfail : outcomeFails (t rc) = true) (hlt : rc < mr) :
    makeRequest mr t rc = ((makeRequest mr t (rc + 1)).1, 2 ^ rc :: (makeRequest mr t (rc + 1)).2) := by
  rw [makeRequest.eq_def]
  cases ht : t rc with
  | ok v => rw [ht] at hfail; exact absurd hfail (by simp [outcomeFails])
  | statusError m => dsimp only; rw [dif_pos hlt]
  | requestError m => dsimp only; rw [dif_pos hlt]

theorem makeRequest_exhausted (mr : Nat) (t : Nat → ReqOutcome)
    (hfail : outcomeFails (t mr) = true) :
    exceptFailed (makeRequest mr t mr).1 = true ∧ (makeRequest mr t mr).2 = [] := by
  rw [makeRequest.eq_def]
  cases ht : t mr with
  | ok v => rw [ht] at hfail; exact absurd hfail (by simp [outcomeFails])
  | statusError m => dsimp only; rw [dif_neg (Nat.lt_irrefl mr)]; exact ⟨rfl, rfl⟩
  | requestError m => dsimp only; rw [dif_neg (Nat.lt_irrefl mr)]; exact ⟨rfl, rfl⟩

theorem makeRequest_ok (mr : Nat) (t : Nat → ReqOutcome) (rc : Nat) (v : String)
    (hok : t rc = ReqOutcome.ok v) :
    makeRequest mr t rc = (Except.ok v, []) := by
  rw [makeRequest.eq_def, hok]

/-! ### Characterizations of the three pipeline operations -/

theorem summariseFolder_none_case (db : Database) (env : ClientEnv) (folderId : Int)
    (limit : Option Nat) (cutoff : Option DateTime) (includeAISummary : Bool)
    (habs : getFolder db folderId = none) :
    summariseFolder db env folderId limit cutoff includeAISummary = (none, []) := by
  unfold summariseFolder
  rw [habs]

theorem summariseFolder_noPosts (db : Database) (env : ClientEnv) (folderId : Int)
    (limit : Option Nat) (cutoff : Option DateTime) (includeAISummary : Bool) (f : Folder)
    (hf : getFolder db folderId = some f)
    (hp : getPostsByFolder db folderId limit cutoff = []) :
    summariseFolder db env folderId limit cutoff includeAISummary =
      (some { folder_name := f.name
              total_posts := 0
              date_range := "Нет данных"
              main_topics := []
              posts := []
              overall_summary := "В указанный период постов не найдено." }, []) := by
  unfold summariseFolder
  rw [hf, hp]

theorem summariseFolder_main (db : Database) (env : ClientEnv) (folderId : Int)
    (limit : Option Nat) (cutoff : Option DateTime) (includeAISummary : Bool)
    (f : Folder) (p0 : Post) (rest : List Post)
    (hf : getFolder db folderId = some f)
    (hp : getPostsByFolder db folderId limit cutoff = p0 :: rest) :
    summariseFolder db env folderId limit cutoff includeAISummary =
      (if includeAISummary then
        (if healthCheck env.baseUrl env.get then
          (some { folder_name := f.name
                  total_posts := (p0 :: rest).length
                  date_range :=
                    formatDMY (pyMinDate p0.date (rest.map (fun p => p.date))) ++ " - " ++
                    formatDMY (pyMaxDate p0.date (rest.map (fun p => p.date)))
                  main_topics := extractTopics env.topicTransport env.parse ((p0 :: rest).take 20)
                  posts := ((p0 :: rest).take 20).map
                    (buildPostSummary (getChannelsInFolder db folderId))
                  overall_summary :=
                    generateSummary env.summaryTransport ((p0 :: rest).take 20) 1000 },
           [RemoteCall.probe, RemoteCall.extractTopicsCall, RemoteCall.generateSummaryCall])
        else
          (some { folder_name := f.name
                  total_posts := (p0 :: rest).length
                  date_range :=
                    formatDMY (pyMinDate p0.date (rest.map (fun p => p.date))) ++ " - " ++
                    formatDMY (pyMaxDate p0.date (rest.map (fun p => p.date)))
                  main_topics := extractSimpleTopics (p0 :: rest)
                  posts := ((p0 :: rest).take 20).map
                    (buildPostSummary (getChannelsInFolder db folderId))
                  overall_summary :=
                    "ИИ-сервис недоступен. Показаны только краткие описания постов." },
           [RemoteCall.probe]))
      else
        (some { folder_name := f.name
                total_posts := (p0 :: rest).length
                date_range :=
                  formatDMY (pyMinDate p0.date (rest.map (fun p => p.date))) ++ " - " ++
                  formatDMY (pyMaxDate p0.date (rest.map (fun p => p.date)))
                main_topics := extractSimpleTopics (p0 :: rest)
                posts := ((p0 :: rest).take 20).map
                  (buildPostSummary (getChannelsInFolder db folderId))
                overall_summary :=
                  "Проанализировано " ++ toString (p0 :: rest).length ++ " постов из " ++
                  toString (getChannelsInFolder db folderId).length ++ " каналов." },
         [])) := by
  unfold summariseFolder
  rw [hf, hp]

theorem askAboutPosts_noPosts (db : Database) (env : ClientEnv) (folderId : Int)
    (question : String) (limit : Option Nat) (cutoff : Option DateTime)
    (hp : getPostsByFolder db folderId limit cutoff = []) :
    askAboutPosts db env folderId question limit cutoff =
      (some { question := question
              answer := "В указанный период постов не найдено для анализа."
              related_posts := []
              confidence := 0 }, []) := by
  unfold askAboutPosts
  rw [hp]

theorem askAboutPosts_main (db : Database) (env : ClientEnv) (folderId : Int)
    (question : String) (limit : Option Nat) (cutoff : Option DateTime)
    (p0 : Post) (rest : List Post)
    (hp : getPostsByFolder db folderId limit cutoff = p0 :: rest) :
    askAboutPosts db env folderId question limit cutoff =
      (if healthCheck env.baseUrl env.get then
        (some { question := question
                answer := answerQuestion env.answerTransport ((p0 :: rest).take 20) question 1500
                related_posts := findRelatedPosts (p0 :: rest) question
                confidence := (4 : ℚ) / 5 },
         [RemoteCall.probe, RemoteCall.answerQuestionCall])
      else
        (some { question := question
                answer := "ИИ-сервис недоступен. Попробуйте позже."
                related_posts := []
                confidence := 0 },
         [RemoteCall.probe])) := by
  unfold askAboutPosts
  rw [hp]

theorem searchAndSummarise_noPosts (db : Database) (env : ClientEnv) (folderId : Int)
    (searchTerm : String) (limit : Nat)
    (hp : searchPosts db folderId searchTerm limit = []) :
    searchAndSummarise db env folderId searchTerm limit =
      (some { folder_name := "Поиск: " ++ searchTerm
              total_posts := 0
              date_range := "Нет результатов"
              main_topics := []
              posts := []
              overall_summary := "По запросу \x27" ++ searchTerm ++ "\x27 ничего не найдено." },
       []) := by
  unfold searchAndSummarise
  rw [hp]

theorem searchAndSummarise_main (db : Database) (env : ClientEnv) (folderId : Int)
    (searchTerm : String) (limit : Nat) (p0 : Post) (rest : List Post)
    (hp : searchPosts db folderId searchTerm limit = p0 :: rest) :
    searchAndSummarise db env folderId searchTerm limit =
      (if healthCheck env.baseUrl env.get then
        (some { folder_name :=
                  (match getFolder db folderId with
                   | some f => f.name
                   | none => "Папка " ++ toString folderId) ++ " - Поиск: " ++ searchTerm
                total_posts := (p0 :: rest).length
                date_range :=
                  formatDMY (pyMinDate p0.date (rest.map (fun p => p.date))) ++ " - " ++
                  formatDMY (pyMaxDate p0.date (rest.map (fun p => p.date)))
                main_topics := extractTopics env.topicTransport env.parse (p0 :: rest)
                posts := (p0 :: rest).map (buildPostSummary (getChannelsInFolder db folderId))
                overall_summary := generateSummary env.summaryTransport (p0 :: rest) 1000 },
         [RemoteCall.probe, RemoteCall.extractTopicsCall, RemoteCall.generateSummaryCall])
      else
        (some { folder_name :=
                  (match getFolder db folderId with
                   | some f => f.name
                   | none => "Папка " ++ toString folderId) ++ " - Поиск: " ++ searchTerm
                total_posts := (p0 :: rest).length
                date_range :=
                  formatDMY (pyMinDate p0.date (rest.map (fun p => p.date))) ++ " - " ++
                  formatDMY (pyMaxDate p0.date (rest.map (fun p => p.date)))
                main_topics := extractSimpleTopics (p0 :: rest)
                posts := (p0 :: rest).map (buildPostSummary (getChannelsInFolder db folderId))
                overall_summary :=
                  "Найдено " ++ toString (p0 :: rest).length ++ " постов по запросу \x27" ++
                  searchTerm ++ "\x27." },
         [RemoteCall.probe])) := by
  unfold searchAndSummarise
  rw [hp]

/-- Any present `summarise_folder` result has digests that are exactly the
image of the first 20 fetched posts under `buildPostSummary`, at most 7
topics, and — when the fetch is non-empty — the min-max date range over
all fetched posts. -/
theorem summariseFolder_fields (db : Database) (env : ClientEnv) (folderId : Int)
    (limit : Option Nat) (cutoff : Option DateTime) (includeAISummary : Bool) (s : Summary)
    (h : (summariseFolder db env folderId limit cutoff includeAISummary).1 = some s) :
    s.posts = ((getPostsByFolder db folderId limit cutoff).take 20).map
      (buildPostSummary (getChannelsInFolder db folderId)) ∧
    s.main_topics.length ≤ 7 ∧
    (∀ p0 rest, getPostsByFolder db folderId limit cutoff = p0 :: rest →
      s.date_range =
        formatDMY (pyMinDate p0.date (rest.map (fun p => p.date))) ++ " - " ++
        formatDMY (pyMaxDate p0.date (rest.map (fun p => p.date)))) := by
  cases hf : getFolder db folderId with
  | none =>
    rw [summariseFolder_none_case db env folderId limit cutoff includeAISummary hf] at h
    cases h
  | some f =>
    cases hp : getPostsByFolder db folderId limit cutoff with
    | nil =>
      rw [summariseFolder_noPosts db env folderId limit cutoff includeAISummary f hf hp] at h
      obtain rfl := Option.some.inj h
      refine ⟨rfl, ?_, ?_⟩
      · show ([] : List String).length ≤ 7
        decide
      · intro p0 rest hcon
        exact absurd hcon (by simp)
    | cons p0 rest =>
      rw [summariseFolder_main db env folderId limit cutoff includeAISummary f p0 rest hf hp] at h
      cases includeAISummary with
      | true =>
        rw [if_pos rfl] at h
        cases hhc : healthCheck env.baseUrl env.get with
        | true =>
          rw [hhc, if_pos rfl] at h
          obtain rfl := Option.some.inj h
          refine ⟨rfl, ?_, ?_⟩
          · show (extractTopics env.topicTransport env.parse (List.take 20 (p0 :: rest))).length ≤ 7
            exact extractTopics_length_le _ _ _
          · intro p0' rest' hcc
            cases hcc
            rfl
        | false =>
          rw [hhc, if_neg Bool.false_ne_true] at h
          obtain rfl := Option.some.inj h
          refine ⟨rfl, ?_, ?_⟩
          · show (extractSimpleTopics (p0 :: rest)).length ≤ 7
            exact Nat.le_trans (extractSimpleTopics_length_le _) (by omega)
          · intro p0' rest' hcc
            cases hcc
            rfl
      | false =>
        rw [if_neg Bool.false_ne_true] at h
        obtain rfl := Option.some.inj h
        refine ⟨rfl, ?_, ?_⟩
        · show (extractSimpleTopics (p0 :: rest)).length ≤ 7
          exact Nat.le_trans (extractSimpleTopics_length_le _) (by omega)
        · intro p0' rest' hcc
          cases hcc
          rfl

/-- Any present `search_and_summarise` result has digests that are exactly
the image of **all** matched posts under `buildPostSummary`, at most 7
topics, and — when the search is non-empty — the min-max date range over
all matched posts. -/
theorem searchAndSummarise_fields (db : Database) (env : ClientEnv) (folderId : Int)
    (searchTerm : String) (limit : Nat) (s : Summary)
    (h : (searchAndSummarise db env folderId searchTerm limit).1 = some s) :
    s.posts = (searchPosts db folderId searchTerm limit).map
      (buildPostSummary (getChannelsInFolder db folderId)) ∧
    s.main_topics.length ≤ 7 ∧
    (∀ p0 rest, searchPosts db folderId searchTerm limit = p0 :: rest →
      s.date_range =
        formatDMY (pyMinDate p0.date (rest.map (fun p => p.date))) ++ " - " ++
        formatDMY (pyMaxDate p0.date (rest.map (fun p => p.date)))) := by
  cases hp : searchPosts db folderId searchTerm limit with
  | nil =>
    rw [searchAndSummarise_noPosts db env folderId searchTerm limit hp] at h
    obtain rfl := Option.some.inj h
    refine ⟨rfl, ?_, ?_⟩
    · show ([] : List String).length ≤ 7
      decide
    · intro p0 rest hcon
      exact absurd hcon (by simp)
  | cons p0 rest =>
    rw [searchAndSummarise_main db env folderId searchTerm limit p0 rest hp] at h
    cases hhc : healthCheck env.baseUrl env.get with
    | true =>
      rw [hhc, if_pos rfl] at h
      obtain rfl := Option.some.inj h
      refine ⟨rfl, ?_, ?_⟩
      · show (extractTopics env.topicTransport env.parse (p0 :: rest)).length ≤ 7
        exact extractTopics_length_le _ _ _
      · intro p0' rest' hcc
        cases hcc
        rfl
    | false =>
      rw [hhc, if_neg Bool.false_ne_true] at h
      obtain rfl := Option.some.inj h
      refine ⟨rfl, ?_, ?_⟩
      · show (extractSimpleTopics (p0 :: rest)).length ≤ 7
        exact Nat.le_trans (extractSimpleTopics_length_le _) (by omega)
      · intro p0' rest' hcc
        cases hcc
        rfl

/-- A transport failing with the same connection error on every attempt's
first try (constant oracle). -/
def exBoomConst : Nat → ReqOutcome := fun _ => ReqOutcome.requestError "boom"

/-- The concrete summary produced over `exDb` by an unavailable client. -/
def exSummaryDown : Summary :=
  ((summariseFolder exDb exEnvDown 1 (some 50) none true).1).getD ⟨"", 0, "", [], [], ""⟩

/-- The digest the pipeline builds for `exPostNoLink`. -/
def exDigest1 : PostSummary := buildPostSummary (getChannelsInFolder exDb 1) exPostNoLink

/-! ### Claim theorems -/

/-- C7: for every folder that exists but has zero posts matching the
limit/days-back filter, `summarise_folder` returns a present summary with
`total_posts = 0`, empty topic and digest lists and the fixed "no data"
narrative, identically for `include_ai = true` and `include_ai = false`
(the flag is quantified and never reaches the returned value). -/
theorem c7_zero_posts_fixed_summary (db : Database) (env : ClientEnv) (folderId : Int)
    (limit : Option Nat) (cutoff : Option DateTime) (includeAISummary : Bool) (f : Folder)
    (hf : getFolder db folderId = some f)
    (hp : getPostsByFolder db folderId limit cutoff = []) :
    (summariseFolder db env folderId limit cutoff includeAISummary).1 =
      some { folder_name := f.name
             total_posts := 0
             date_range := "Нет данных"
             main_topics := []
             posts := []
             overall_summary := "В указанный период постов не найдено." } := by
  rw [summariseFolder_noPosts db env folderId limit cutoff includeAISummary f hf hp]

/-- Witness for C7 at a concrete store with a folder and no posts. -/
theorem c7_zero_posts_fixed_summary_witness :
    (summariseFolder exDbNoPosts exEnvUp 1 (some 50) none true).1 =
      some { folder_name := exFolder.name
             total_posts := 0
             date_range := "Нет данных"
             main_topics := []
             posts := []
             overall_summary := "В указанный период постов не найдено." } :=
  c7_zero_posts_fixed_summary exDbNoPosts exEnvUp 1 (some 50) none true exFolder
    (by decide) (by decide)

/-- C5: when the liveness probe reports the service unavailable,
`summarise_folder` with `include_ai = true` performs no remote
`extract_topics` or `generate_summary` call — its remote-call log is just
the probe — and returns the fixed "service unavailable" narrative with
`main_topics` taken from the local frequency heuristic over the fetched
posts. -/
theorem c5_probe_down_local_fallback (db : Database) (env : ClientEnv) (folderId : Int)
    (limit : Option Nat) (cutoff : Option DateTime) (f : Folder) (p0 : Post) (rest : List Post)
    (hdown : healthCheck env.baseUrl env.get = false)
    (hf : getFolder db folderId = some f)
    (hp : getPostsByFolder db folderId limit cutoff = p0 :: rest) :
    (summariseFolder db env folderId limit cutoff true).2 = [RemoteCall.probe] ∧
    (summariseFolder db env folderId limit cutoff true).1 =
      some { folder_name := f.name
             total_posts := (p0 :: rest).length
             date_range :=
               formatDMY (pyMinDate p0.date (rest.map (fun p => p.date))) ++ " - " ++
               formatDMY (pyMaxDate p0.date (rest.map (fun p => p.date)))
             main_topics := extractSimpleTopics (p0 :: rest)
             posts := ((p0 :: rest).take 20).map
               (buildPostSummary (getChannelsInFolder db folderId))
             overall_summary :=
               "ИИ-сервис недоступен. Показаны только краткие описания постов." } := by
  rw [summariseFolder_main db env folderId limit cutoff true f p0 rest hf hp, hdown]
  exact ⟨rfl, rfl⟩

/-- Witness for C5 at a concrete store and a client whose probe raises. -/
theorem c5_probe_down_local_fallback_witness :
    (summariseFolder exDb exEnvDown 1 (some 50) none true).2 = [RemoteCall.probe] :=
  (c5_probe_down_local_fallback exDb exEnvDown 1 (some 50) none exFolder
    exPostNoLink [exPostEmptyLink] rfl (by decide) (by decide)).1

/-- C9: on the successful `ask_about_posts` path (posts fetched, probe
alive), the returned `related_posts` is exactly the list of identifiers of
fetched posts whose lower-cased whitespace tokens intersect the question's
tokens, in fetch order and capped to five, and `confidence` is the
constant 0.8 (= 4/5). -/
theorem c9_related_posts_and_confidence (db : Database) (env : ClientEnv) (folderId : Int)
    (question : String) (limit : Option Nat) (cutoff : Option DateTime)
    (p0 : Post) (rest : List Post)
    (hp : getPostsByFolder db folderId limit cutoff = p0 :: rest)
    (hup : healthCheck env.baseUrl env.get = true) :
    (askAboutPosts db env folderId question limit cutoff).1 =
      some { question := question
             answer := answerQuestion env.answerTransport ((p0 :: rest).take 20) question 1500
             related_posts := relatedSpec (p0 :: rest) question
             confidence := (4 : ℚ) / 5 } ∧
    (relatedSpec (p0 :: rest) question).length ≤ 5 := by
  constructor
  · rw [askAboutPosts_main db env folderId question limit cutoff p0 rest hp, if_pos hup,
      findRelatedPosts_eq_spec]
  · exact List.length_take_le 5 _

/-- Witness for C9 at a concrete store, a healthy client and a question
sharing the token "новости" with both posts. -/
theorem c9_related_posts_and_confidence_witness :
    (askAboutPosts exDb exEnvUp 1 "что за новости" (some 50) none).1 =
      some { question := "что за новости"
             answer := answerQuestion exEnvUp.answerTransport
               (([exPostNoLink, exPostEmptyLink] : List Post).take 20) "что за новости" 1500
             related_posts := relatedSpec [exPostNoLink, exPostEmptyLink] "что за новости"
             confidence := (4 : ℚ) / 5 } :=
  (c9_related_posts_and_confidence exDb exEnvUp 1 "что за новости" (some 50) none
    exPostNoLink [exPostEmptyLink] (by decide) rfl).1

/-- C6 counterexample: the claim locates the probe at
`GET <base_url>/v1/models`; under an oracle where exactly that request
succeeds (status 200), `health_check` still reports `false`, because the
code probes `GET <base_url>/chat/`. -/
theorem c6_counterexample :
    exProbeModelsOnly "http://h/v1/models" = ProbeOutcome.ok 200 ∧
    healthCheck "http://h" exProbeModelsOnly = false := by
  exact ⟨by decide, by decide⟩

/-- C6 amended: `health_check` returns true iff the probe
`GET <base_url>/chat/` succeeds with a 2xx status; any raised exception
(and any non-2xx status, which `raise_for_status` turns into an
exception) is swallowed and reported as false. -/
theorem c6_health_check_probes_chat (baseUrl : String) (get : String → ProbeOutcome) :
    healthCheck baseUrl get = true ↔
      ∃ st, get (baseUrl ++ "/chat/") = ProbeOutcome.ok st ∧ 200 ≤ st ∧ st < 300 := by
  unfold healthCheck
  cases hg : get (baseUrl ++ "/chat/") with
  | ok st =>
    dsimp only
    by_cases h : 200 ≤ st ∧ st < 300
    · rw [if_pos h]
      exact ⟨fun _ => ⟨st, rfl, h.1, h.2⟩, fun _ => rfl⟩
    · rw [if_neg h]
      constructor
      · intro hft
        exact absurd hft Bool.false_ne_true
      · rintro ⟨st', heq, h1, h2⟩
        cases heq
        exact absurd ⟨h1, h2⟩ h
  | exn =>
    constructor
    · intro hft
      exact absurd hft Bool.false_ne_true
    · rintro ⟨st', heq, _, _⟩
      cases heq

/-- C1 counterexample: folder id 99 is absent from `exDb` (a store with
referential integrity), yet `search_and_summarise` returns a **present**
summary rather than the absent result the claim asserts. -/
theorem c1_counterexample :
    getFolder exDb 99 = none ∧
    refIntegrity exDb = true ∧
    ((searchAndSummarise exDb exEnvUp 99 "x" 30).1).isSome = true := by
  exact ⟨by decide, by decide, by decide⟩

/-- C1 amended: for a folder id absent from a referentially-intact store,
`summarise_folder` returns the absent result; `search_and_summarise`
returns a **present** zero-count summary with the fixed "no results"
narrative; and `ask_about_posts` returns a present answer whose text
carries the "не найдено" (not found) indicator. -/
theorem c1_absent_folder (db : Database) (env : ClientEnv) (folderId : Int)
    (question term : String) (limit : Option Nat) (slimit : Nat)
    (cutoff : Option DateTime) (includeAISummary : Bool)
    (hint : refIntegrity db = true)
    (habs : getFolder db folderId = none) :
    (summariseFolder db env folderId limit cutoff includeAISummary).1 = none ∧
    (searchAndSummarise db env folderId term slimit).1 =
      some { folder_name := "Поиск: " ++ term
             total_posts := 0
             date_range := "Нет результатов"
             main_topics := []
             posts := []
             overall_summary := "По запросу \x27" ++ term ++ "\x27 ничего не найдено." } ∧
    (askAboutPosts db env folderId question limit cutoff).1 =
      some { question := question
             answer := "В указанный период постов не найдено для анализа."
             related_posts := []
             confidence := 0 } ∧
    containsSub "В указанный период постов не найдено для анализа." "не найдено" = true := by
  obtain ⟨hposts, hsearch⟩ := absent_folder_queries_empty db folderId hint habs
  refine ⟨?_, ?_, ?_, by decide⟩
  · rw [summariseFolder_none_case db env folderId limit cutoff includeAISummary habs]
  · rw [searchAndSummarise_noPosts db env folderId term slimit (hsearch term slimit)]
  · rw [askAboutPosts_noPosts db env folderId question limit cutoff (hposts limit cutoff)]

/-- Witness for C1 at the concrete store without folder 99. -/
theorem c1_absent_folder_witness :
    (summariseFolder exDb exEnvUp 99 (some 50) none true).1 = none :=
  (c1_absent_folder exDb exEnvUp 99 "вопрос" "x" (some 50) 30 none true
    (by decide) (by decide)).1

/-- C2 counterexample: on the summary path a transient first-attempt
failure is **not** retried even though a retrying client (`_make_request`,
shown alongside) would have succeeded on the second attempt, and the
failure is converted into an error string by the client itself instead of
being propagated as an exception. -/
theorem c2_counterexample :
    makeRequest 3 exFailThenOk 0 = (Except.ok "OK", [1]) ∧
    generateSummary exFailThenOk [exPostNoLink] 1000 = "Ошибка при генерации сводки: boom" ∧
    generateSummary exFailThenOk [exPostNoLink] 1000 ≠ "OK" := by
  refine ⟨?_, by decide, by decide⟩
  rw [makeRequest_step_fail 3 exFailThenOk 0 (by decide) (by decide),
      makeRequest_ok 3 exFailThenOk 1 "OK" (by decide)]
  rfl

/-- C2 amended: the retry-with-`2^attempt`-backoff-then-propagate policy
belongs to `_make_request` alone (retry on transient failure, sleeps
`[1, 2, 4]` with default `max_retries = 3`, re-raise after exhaustion);
the summary, answer and topic paths call `_make_stream_request`, which
performs a single attempt (its result depends only on attempt 0), and on
its failure the client itself converts the exception into an
error-describing string (`generate_summary`, `answer_question`) or an
empty list (`extract_topics`). -/
theorem c2_retry_policy :
    (∀ (t : Nat → ReqOutcome) (v m : String), t 0 = ReqOutcome.statusError m →
      t 1 = ReqOutcome.ok v → makeRequest 3 t 0 = (Except.ok v, [1])) ∧
    (∀ t : Nat → ReqOutcome, (∀ i, i ≤ 3 → outcomeFails (t i) = true) →
      exceptFailed (makeRequest 3 t 0).1 = true ∧ (makeRequest 3 t 0).2 = [1, 2, 4]) ∧
    (∀ t tt : Nat → ReqOutcome, t 0 = tt 0 → makeStreamRequest t = makeStreamRequest tt) ∧
    (∀ (t : Nat → ReqOutcome) (posts : List Post) (m : String), posts ≠ [] →
      t 0 = ReqOutcome.requestError m →
      generateSummary t posts 1000 = "Ошибка при генерации сводки: " ++ m ∧
      (∀ q, answerQuestion t posts q 1500 = "Ошибка при генерации ответа: " ++ m) ∧
      (∀ parse, extractTopics t parse posts = [])) := by
  refine ⟨?_, ?_, ?_, ?_⟩
  · intro t v m h0 h1
    rw [makeRequest_step_fail 3 t 0 (by rw [h0]; rfl) (by omega), makeRequest_ok 3 t 1 v h1]
    rfl
  · intro t h
    have s0 := makeRequest_step_fail 3 t 0 (h 0 (by omega)) (by omega)
    have s1 := makeRequest_step_fail 3 t 1 (h 1 (by omega)) (by omega)
    have s2 := makeRequest_step_fail 3 t 2 (h 2 (by omega)) (by omega)
    have e3 := makeRequest_exhausted 3 t (h 3 (by omega))
    rw [s0, s1, s2]
    dsimp only
    refine ⟨e3.1, ?_⟩
    rw [e3.2]
    decide
  · intro t tt h
    unfold makeStreamRequest
    rw [h]
  · intro t posts m hne h0
    have hms : makeStreamRequest t = Except.error (ReqError.requestError m) := by
      unfold makeStreamRequest
      rw [h0]
    have hemp : ¬(posts.isEmpty = true) := by
      cases posts with
      | nil => exact absurd rfl hne
      | cons a l => simp
    refine ⟨?_, fun q => ?_, fun parse => ?_⟩
    · unfold generateSummary
      rw [if_neg hemp, hms]
      rfl
    · unfold answerQuestion
      rw [if_neg hemp, hms]
      rfl
    · unfold extractTopics
      rw [if_neg hemp, hms]

/-- Witness for C2 at concrete transports. -/
theorem c2_retry_policy_witness :
    makeRequest 3 exStatusThenOk 0 = (Except.ok "OK", [1]) ∧
    exceptFailed (makeRequest 3 exAlwaysFail 0).1 = true ∧
    (makeRequest 3 exAlwaysFail 0).2 = [1, 2, 4] ∧
    makeStreamRequest exFailThenOk = makeStreamRequest exBoomConst ∧
    generateSummary exAlwaysFail [exPostNoLink] 1000 = "Ошибка при генерации сводки: down" :=
  ⟨c2_retry_policy.1 exStatusThenOk "OK" "500" rfl rfl,
   (c2_retry_policy.2.1 exAlwaysFail (fun _ _ => rfl)).1,
   (c2_retry_policy.2.1 exAlwaysFail (fun _ _ => rfl)).2,
   c2_retry_policy.2.2.1 exFailThenOk exBoomConst rfl,
   (c2_retry_policy.2.2.2 exAlwaysFail [exPostNoLink] "down" (by decide) rfl).1⟩

/-- C3 counterexample: in the AI-exercised path of `search_and_summarise`
over a store with 21 matching posts (healthy client, limit 30), the digest
list has 21 entries — more than the 20 the claim asserts. -/
theorem c3_counterexample :
    digestCount ((searchAndSummarise exDbMany exEnvUp 1 "пост" 30).1) = 21 ∧
    ¬(21 ≤ 20) := by
  exact ⟨by decide, by decide⟩

/-- C3 amended: `main_topics` is always at most 7 long; the digest list of
`summarise_folder` is at most 20 long; but the digest list of
`search_and_summarise` has exactly one entry per matched post — bounded
only by the query limit, so it can exceed 20. -/
theorem c3_topic_digest_caps (db : Database) (env : ClientEnv) (folderId : Int)
    (limit : Option Nat) (cutoff : Option DateTime) (includeAISummary : Bool)
    (term : String) (slimit : Nat) :
    (∀ s, (summariseFolder db env folderId limit cutoff includeAISummary).1 = some s →
      s.main_topics.length ≤ 7 ∧ s.posts.length ≤ 20) ∧
    (∀ s, (searchAndSummarise db env folderId term slimit).1 = some s →
      s.main_topics.length ≤ 7 ∧
      s.posts.length = (searchPosts db folderId term slimit).length ∧
      s.posts.length ≤ slimit) := by
  constructor
  · intro s hs
    obtain ⟨hposts, htopics, _⟩ :=
      summariseFolder_fields db env folderId limit cutoff includeAISummary s hs
    refine ⟨htopics, ?_⟩
    rw [hposts, List.length_map]
    exact List.length_take_le 20 _
  · intro s hs
    obtain ⟨hposts, htopics, _⟩ := searchAndSummarise_fields db env folderId term slimit s hs
    refine ⟨htopics, ?_, ?_⟩
    · rw [hposts, List.length_map]
    · rw [hposts, List.length_map]
      unfold searchPosts
      dsimp only
      exact List.length_take_le _ _

/-- Witness for C3 at the concrete unavailable-client summary. -/
theorem c3_topic_digest_caps_witness :
    exSummaryDown.main_topics.length ≤ 7 ∧ exSummaryDown.posts.length ≤ 20 :=
  (c3_topic_digest_caps exDb exEnvDown 1 (some 50) none true "x" 30).1
    exSummaryDown (by decide)

/-- C4 counterexample: over `exDb` every fetched post falls on the single
calendar day 01.01.2024, yet the result's date range is the two-date
rendering "01.01.2024 - 01.01.2024", not the collapsed single date string
the claim asserts. -/
theorem c4_counterexample :
    allOnDay (getPostsByFolder exDb 1 (some 50) none) "01.01.2024" = true ∧
    dateRangeOf ((summariseFolder exDb exEnvDown 1 (some 50) none true).1) =
      some "01.01.2024 - 01.01.2024" ∧
    ("01.01.2024 - 01.01.2024" : String) ≠ "01.01.2024" := by
  exact ⟨by decide, by decide, by decide⟩

/-- C4 amended: the date range of every non-empty result of both
operations is `formatDMY(min) ++ " - " ++ formatDMY(max)` where min and
max are taken over **all** fetched/matched posts (the last conjunct shows
they are genuine extrema); the two-date rendering is used even when all
posts fall on one calendar day, in which case the two formatted dates are
merely equal. -/
theorem c4_date_range_min_max (db : Database) (env : ClientEnv) (folderId : Int)
    (limit : Option Nat) (cutoff : Option DateTime) (includeAISummary : Bool)
    (term : String) (slimit : Nat) :
    (∀ p0 rest s, getPostsByFolder db folderId limit cutoff = p0 :: rest →
      (summariseFolder db env folderId limit cutoff includeAISummary).1 = some s →
      s.date_range =
        formatDMY (pyMinDate p0.date (rest.map (fun p => p.date))) ++ " - " ++
        formatDMY (pyMaxDate p0.date (rest.map (fun p => p.date)))) ∧
    (∀ p0 rest s, searchPosts db folderId term slimit = p0 :: rest →
      (searchAndSummarise db env folderId term slimit).1 = some s →
      s.date_range =
        formatDMY (pyMinDate p0.date (rest.map (fun p => p.date))) ++ " - " ++
        formatDMY (pyMaxDate p0.date (rest.map (fun p => p.date)))) ∧
    (∀ (d : DateTime) (ds : List DateTime),
      pyMinDate d ds ∈ d :: ds ∧ pyMaxDate d ds ∈ d :: ds ∧
      ∀ x ∈ d :: ds, (pyMinDate d ds).key ≤ x.key ∧ x.key ≤ (pyMaxDate d ds).key) := by
  refine ⟨?_, ?_, ?_⟩
  · intro p0 rest s hp hs
    exact (summariseFolder_fields db env folderId limit cutoff includeAISummary s hs).2.2
      p0 rest hp
  · intro p0 rest s hp hs
    exact (searchAndSummarise_fields db env folderId term slimit s hs).2.2 p0 rest hp
  · intro d ds
    refine ⟨pyMinDate_mem ds d, pyMaxDate_mem ds d, ?_⟩
    intro x hx
    rcases List.mem_cons.mp hx with rfl | hx'
    · exact ⟨pyMinDate_le_start ds x, pyMaxDate_ge_start ds x⟩
    · exact ⟨pyMinDate_le_mem ds d x hx', pyMaxDate_ge_mem ds d x hx'⟩

/-- Witness for C4: the concrete summary's range is the (equal) two-date
rendering of the single day. -/
theorem c4_date_range_min_max_witness :
    exSummaryDown.date_range = "01.01.2024 - 01.01.2024" :=
  (c4_date_range_min_max exDb exEnvDown 1 (some 50) none true "x" 30).1
    exPostNoLink [exPostEmptyLink] exSummaryDown (by decide) (by decide)

/-- C8 counterexample: `exPostEmptyLink`'s stored link field is present
(an empty string), yet its pipeline digest carries the username-fallback
permalink instead of the stored link. -/
theorem c8_counterexample :
    exPostEmptyLink.link.isSome = true ∧
    digestLinks ((summariseFolder exDb exEnvDown 1 (some 50) none true).1) =
      [some "https://t.me/chan/11", some "https://t.me/chan/10"] ∧
    ¬(some "https://t.me/chan/10" = exPostEmptyLink.link) := by
  exact ⟨by decide, by decide, by decide⟩

/-- C8 amended: every digest built by either operation carries the
permalink prescribed by `linkSpec` for its source post — the stored link
when present **and non-empty**, otherwise the
`https://t.me/<username>/<tg_post_id>` fallback when the post's channel
resolves with a non-empty username, otherwise absent. -/
theorem c8_permalink_rule (db : Database) (env : ClientEnv) (folderId : Int)
    (limit : Option Nat) (cutoff : Option DateTime) (includeAISummary : Bool)
    (term : String) (slimit : Nat) :
    (∀ s, (summariseFolder db env folderId limit cutoff includeAISummary).1 = some s →
      ∀ d ∈ s.posts, ∃ p, p ∈ getPostsByFolder db folderId limit cutoff ∧
        d.post_id = p.id ∧ d.link = linkSpec (getChannelsInFolder db folderId) p) ∧
    (∀ s, (searchAndSummarise db env folderId term slimit).1 = some s →
      ∀ d ∈ s.posts, ∃ p, p ∈ searchPosts db folderId term slimit ∧
        d.post_id = p.id ∧ d.link = linkSpec (getChannelsInFolder db folderId) p) := by
  constructor
  · intro s hs d hd
    rw [(summariseFolder_fields db env folderId limit cutoff includeAISummary s hs).1] at hd
    obtain ⟨p, hpmem, rfl⟩ := List.mem_map.mp hd
    exact ⟨p, List.take_subset 20 _ hpmem, rfl, buildPostSummary_link _ p⟩
  · intro s hs d hd
    rw [(searchAndSummarise_fields db env folderId term slimit s hs).1] at hd
    obtain ⟨p, hpmem, rfl⟩ := List.mem_map.mp hd
    exact ⟨p, hpmem, rfl, buildPostSummary_link _ p⟩

/-- Witness for C8 at the concrete pipeline output. -/
theorem c8_permalink_rule_witness :
    ∃ p, p ∈ getPostsByFolder exDb 1 (some 50) none ∧
      exDigest1.post_id = p.id ∧ exDigest1.link = linkSpec (getChannelsInFolder exDb 1) p :=
  (c8_permalink_rule exDb exEnvDown 1 (some 50) none true "x" 30).1
    exSummaryDown (by decide) exDigest1 (by decide)

/-- C10: every digest text produced by either operation is non-empty, at
most 203 characters long, and equals the claim's trichotomy applied to
the source post's text: 200-character truncation with ellipsis when the
text exceeds 200 characters, the full text when it does not, the fixed
placeholder when the post has no text (absent or empty). -/
theorem c10_digest_text (db : Database) (env : ClientEnv) (folderId : Int)
    (limit : Option Nat) (cutoff : Option DateTime) (includeAISummary : Bool)
    (term : String) (slimit : Nat) :
    (∀ s, (summariseFolder db env folderId limit cutoff includeAISummary).1 = some s →
      ∀ d ∈ s.posts, d.summary ≠ "" ∧ d.summary.length ≤ 203 ∧
        ∃ p, p ∈ getPostsByFolder db folderId limit cutoff ∧
          d.post_id = p.id ∧ d.summary = summarySpec p.text) ∧
    (∀ s, (searchAndSummarise db env folderId term slimit).1 = some s →
      ∀ d ∈ s.posts, d.summary ≠ "" ∧ d.summary.length ≤ 203 ∧
        ∃ p, p ∈ searchPosts db folderId term slimit ∧
          d.post_id = p.id ∧ d.summary = summarySpec p.text) := by
  constructor
  · intro s hs d hd
    rw [(summariseFolder_fields db env folderId limit cutoff includeAISummary s hs).1] at hd
    obtain ⟨p, hpmem, rfl⟩ := List.mem_map.mp hd
    have hsum : (buildPostSummary (getChannelsInFolder db folderId) p).summary =
        summarySpec p.text := by
      rw [buildPostSummary_summary, truncateText_eq_spec]
    refine ⟨?_, ?_, p, List.take_subset 20 _ hpmem, rfl, hsum⟩
    · rw [hsum]; exact summarySpec_ne_empty _
    · rw [hsum]; exact summarySpec_length_le _
  · intro s hs d hd
    rw [(searchAndSummarise_fields db env folderId term slimit s hs).1] at hd
    obtain ⟨p, hpmem, rfl⟩ := List.mem_map.mp hd
    have hsum : (buildPostSummary (getChannelsInFolder db folderId) p).summary =
        summarySpec p.text := by
      rw [buildPostSummary_summary, truncateText_eq_spec]
    refine ⟨?_, ?_, p, hpmem, rfl, hsum⟩
    · rw [hsum]; exact summarySpec_ne_empty _
    · rw [hsum]; exact summarySpec_length_le _

/-- Witness for C10 at the concrete pipeline output. -/
theorem c10_digest_text_witness :
    exDigest1.summary ≠ "" ∧ exDigest1.summary.length ≤ 203 ∧
    ∃ p, p ∈ getPostsByFolder exDb 1 (some 50) none ∧
      exDigest1.post_id = p.id ∧ exDigest1.summary = summarySpec p.text :=
  (c10_digest_text exDb exEnvDown 1 (some 50) none true "x" 30).1
    exSummaryDown (by decide) exDigest1 (by decide)

end AISummariser
